import Mathlib

/-!
Shallow embedding of the tempest-influxdb core pipeline.

Sources embedded:
* package `influx` (`Data`, `New`, `Marshal`) — InfluxDB line-protocol encoding;
* package `tempest` (`Report`, `parseObservation`, `parseRapidWind`,
  `parseRainStartEvent`, `parseLightningStrike`, `parseAirObservation`,
  `parseSkyObservation`, `parseDeviceStatus`, `parseHubStatus`, `Parse`) —
  envelope dispatch and per-type extraction.

Go `float64` values are modelled by `GoFloat`: either NaN or a dyadic
rational `mant / 2 ^ bexp`.  Every finite IEEE-754 double is of this shape,
and the embedded code performs no arithmetic on raw values — it only rounds
(`math.Round`, half away from zero), truncates (`int64(x)`, toward zero) and
formats (`%.2f`, `%d`), all of which are implemented below exactly on the
represented value.  The dew-point routine is an external dependency and is
passed in as a function parameter, mirroring its role as an injected
capability.
-/

/-- Model of a Go float64 value: NaN, or the dyadic rational mant / 2 ^ bexp. -/
inductive GoFloat where
  | nan : GoFloat
  | fin (mant : Int) (bexp : Nat) : GoFloat
deriving DecidableEq

/-- Integer-valued GoFloat. -/
def gf (m : Int) : GoFloat := GoFloat.fin m 0

/-- Whether the value is NaN, as Go math.IsNaN. -/
def GoFloat.isNaN : GoFloat → Bool
  | .nan => true
  | .fin _ _ => false

/-- Rounding of a nonnegative dyadic a / 2 ^ e to the nearest natural, halves up. -/
def dyadicRoundNat (a : Nat) (e : Nat) : Nat :=
  (2 * a + 2 ^ e) / (2 ^ (e + 1))

/-- Go int(math.Round(x)): nearest integer, halves away from zero.
Conversion of NaN to an integer is implementation-specific in Go; it is
modelled as 0 and no theorem below depends on that choice. -/
def GoFloat.roundToInt : GoFloat → Int
  | .nan => 0
  | .fin m e => if m < 0 then -(dyadicRoundNat m.natAbs e : Int) else (dyadicRoundNat m.natAbs e : Int)

/-- Go int64(x): truncation toward zero (NaN modelled as 0, see roundToInt). -/
def GoFloat.truncToInt : GoFloat → Int
  | .nan => 0
  | .fin m e => if m < 0 then -(m.natAbs / 2 ^ e : Nat) else (m.natAbs / 2 ^ e : Nat)

/-- Two-digit zero-padded decimal rendering of n < 100. -/
def pad2 (n : Nat) : String :=
  if n < 10 then "0" ++ toString n else toString n

/-- Rounding of the nonnegative dyadic a / 2 ^ e to the nearest natural with
ties to even, the correct rounding Go strconv applies to the exact binary
value (exact ties do occur at doubles, e.g. 4.625 = 37 / 8). -/
def dyadicRoundNatEven (a e : Nat) : Nat :=
  let d := 2 ^ e
  let q := a / d
  let r := a % d
  if 2 * r < d then q
  else if d < 2 * r then q + 1
  else if q % 2 = 0 then q else q + 1

/-- Go fmt.Sprintf("%.2f", x): sign of the value, then the magnitude
correctly rounded to centesimals with ties to even, so 4.625 renders as
4.62 and 0.375 as 0.38. -/
def fmtF2 : GoFloat → String
  | .nan => "NaN"
  | .fin m e =>
    let n := dyadicRoundNatEven (100 * m.natAbs) e
    (if m < 0 then "-" else "") ++ toString (n / 100) ++ "." ++ pad2 (n % 100)

/-- Go fmt.Sprintf("%d", n) on an int. -/
def fmtD (n : Int) : String := toString n

/-- Byte-lexicographic order on character lists (UTF-8 byte order and
code-point order agree, which is what Go sort.Strings compares). -/
def lexLe : List Char → List Char → Bool
  | [], _ => true
  | _ :: _, [] => false
  | a :: as, b :: bs => if a < b then true else if a = b then lexLe as bs else false

/-- Byte-lexicographic order on strings, as compared by Go sort.Strings. -/
def strLe (a b : String) : Bool := lexLe a.toList b.toList

/-- The order relation used for sorting, in Prop form. -/
def strLeP (a b : String) : Prop := strLe a b = true

instance : DecidableRel strLeP := fun a b => instDecidableEqBool (strLe a b) true

/-- Go sort.Strings: sorts a string slice ascending, byte-lexicographically. -/
def sortStrings (l : List String) : List String := List.insertionSort strLeP l

/-- influx.Data: the record handed to the line-protocol encoder.  Go
represents Tags and Fields as unordered maps; they are modelled as
association lists whose order carries the (unobservable) map iteration
order. -/
structure Data where
  Timestamp : Int
  Name : String
  Bucket : String
  Tags : List (String × String)
  Fields : List (String × String)
deriving DecidableEq

/-- Renders one key=value pair, as the Marshal loops do. -/
def pairStr (p : String × String) : String := p.1 ++ "=" ++ p.2

/-- influx.Data.Marshal: collect tag and field key=value strings, sort each
list, and print measurement,tags fields timestamp with a trailing newline. -/
def Data.Marshal (m : Data) : String :=
  let tags := sortStrings (m.Tags.map pairStr)
  let fields := sortStrings (m.Fields.map pairStr)
  m.Name ++ "," ++ String.intercalate "," tags ++ " " ++
    String.intercalate "," fields ++ " " ++ toString m.Timestamp ++ "\n"

/-- config.Config, restricted to the fields the tempest package reads. -/
structure Config where
  Debug : Bool
  Rapid_Wind : Bool
  Influx_Bucket : String
  Influx_Bucket_Rapid_Wind : String
deriving DecidableEq

/-- tempest.Report: the decoded envelope.  Go declares Obs as [1][]float64;
the single inner slice is modelled directly.  Ob is declared [3]float64, a
fixed-size array, modelled as a triple. -/
structure Report where
  StationSerial : String
  ReportType : String
  HubSerial : String
  Obs : List GoFloat
  Ob : GoFloat × GoFloat × GoFloat
  Evt : List GoFloat
  FirmwareRevision : Int
  Uptime : Int
  Timestamp : Int
  ResetFlags : String
  Seq : Int
  Voltage : GoFloat
  RSSI : GoFloat
  HubRSSI : GoFloat
  SensorStatus : Int
deriving DecidableEq

/-- Go len(report.Ob) is the length of the fixed-size [3]float64 array. -/
def Report.obList (r : Report) : List GoFloat := [r.Ob.1, r.Ob.2.1, r.Ob.2.2]

/-- Error values built by the tempest package.  insufficientData wraps
ErrInsufficientData with an expected and an actual count; the evt variants
mention only the expected count.  invalidReportType models the declared
ErrInvalidReportType sentinel.  wrap models fmt.Errorf("op: %w", e). -/
inductive TempestError where
  | insufficientData (expected actual : Nat) : TempestError
  | insufficientDataEvt (expected : Nat) : TempestError
  | invalidReportType : TempestError
  | wrap (op : String) (e : TempestError) : TempestError
deriving DecidableEq

/-- Whether an error is, or wraps, the declared ErrInvalidReportType sentinel. -/
def TempestError.usesInvalidReportType : TempestError → Bool
  | .invalidReportType => true
  | .wrap _ e => e.usesInvalidReportType
  | _ => false

/-- Dew-point capability: Go dewpoint.Calculate(tempC, rhPercent) returns a
float64 and an error; the Bool is whether the error was non-nil. -/
def DewFn := GoFloat → GoFloat → GoFloat × Bool

/-- Result of one extractor: the timestamp and fields it stores into the
influx.Data (the Go functions mutate m; the model returns the values). -/
def ParseResult := Int × List (String × String)

/-- Field map built by tempest.parseObservation (map literal order, which is
already alphabetical in the source). -/
def obsStFields (dew : DewFn) (data : List GoFloat) : List (String × String) :=
  let dp := dew (data.getD 7 .nan) (data.getD 8 .nan)
  [("battery", fmtF2 (data.getD 16 .nan)),
   ("dew_point", fmtF2 dp.1),
   ("illuminance", fmtD (data.getD 9 .nan).roundToInt),
   ("p", fmtF2 (data.getD 6 .nan)),
   ("precipitation", fmtF2 (data.getD 12 .nan)),
   ("precipitation_type", fmtD (data.getD 13 .nan).roundToInt),
   ("solar_radiation", fmtD (data.getD 11 .nan).roundToInt),
   ("strike_count", fmtD (data.getD 15 .nan).roundToInt),
   ("strike_distance", fmtD (data.getD 14 .nan).roundToInt),
   ("temp", fmtF2 (data.getD 7 .nan)),
   ("uv", fmtF2 (data.getD 10 .nan)),
   ("wind_avg", fmtF2 (data.getD 2 .nan)),
   ("wind_direction", fmtD (data.getD 4 .nan).roundToInt),
   ("wind_gust", fmtF2 (data.getD 3 .nan)),
   ("wind_lull", fmtF2 (data.getD 1 .nan))]

/-- tempest.parseObservation: obs_st extractor. -/
def parseObservation (cfg : Config) (dew : DewFn) (report : Report) :
    Except TempestError ParseResult :=
  if report.Obs.length < 18 then
    .error (.insufficientData 18 report.Obs.length)
  else
    .ok ((report.Obs.getD 0 .nan).truncToInt, obsStFields dew report.Obs)

/-- tempest.parseRapidWind: rapid_wind extractor. -/
def parseRapidWind (cfg : Config) (report : Report) :
    Except TempestError ParseResult :=
  if report.obList.length < 3 then
    .error (.insufficientData 3 report.obList.length)
  else
    .ok (report.Ob.1.truncToInt,
      [("rapid_wind_speed", fmtF2 report.Ob.2.1),
       ("rapid_wind_direction", fmtD report.Ob.2.2.roundToInt)])

/-- tempest.parseRainStartEvent: evt_precip extractor. -/
def parseRainStartEvent (cfg : Config) (report : Report) :
    Except TempestError ParseResult :=
  if report.Evt.length < 1 then
    .error (.insufficientDataEvt 1)
  else
    .ok ((report.Evt.getD 0 .nan).truncToInt, [("rain_start_event", "1")])

/-- tempest.parseLightningStrike: evt_strike extractor. -/
def parseLightningStrike (cfg : Config) (report : Report) :
    Except TempestError ParseResult :=
  if report.Evt.length < 3 then
    .error (.insufficientDataEvt 3)
  else
    .ok ((report.Evt.getD 0 .nan).truncToInt,
      [("lightning_distance", fmtD (report.Evt.getD 1 .nan).roundToInt),
       ("lightning_energy", fmtD (report.Evt.getD 2 .nan).roundToInt)])

/-- Field map built by tempest.parseAirObservation. -/
def airFields (dew : DewFn) (data : List GoFloat) : List (String × String) :=
  let dp := dew (data.getD 2 .nan) (data.getD 3 .nan)
  [("air_temperature", fmtF2 (data.getD 2 .nan)),
   ("battery", fmtF2 (data.getD 6 .nan)),
   ("dew_point", fmtF2 dp.1),
   ("humidity", fmtF2 (data.getD 3 .nan)),
   ("pressure", fmtF2 (data.getD 1 .nan)),
   ("strike_count", fmtD (data.getD 4 .nan).roundToInt),
   ("strike_distance", fmtD (data.getD 5 .nan).roundToInt)]

/-- tempest.parseAirObservation: obs_air extractor. -/
def parseAirObservation (cfg : Config) (dew : DewFn) (report : Report) :
    Except TempestError ParseResult :=
  if report.Obs.length < 8 then
    .error (.insufficientData 8 report.Obs.length)
  else
    .ok ((report.Obs.getD 0 .nan).truncToInt, airFields dew report.Obs)

/-- Field map literal built by tempest.parseSkyObservation before the
conditional daily_rain entry is added. -/
def skyBaseFields (data : List GoFloat) : List (String × String) :=
  [("battery", fmtF2 (data.getD 8 .nan)),
   ("illuminance", fmtD (data.getD 1 .nan).roundToInt),
   ("precipitation", fmtF2 (data.getD 3 .nan)),
   ("precipitation_type", fmtD (data.getD 12 .nan).roundToInt),
   ("solar_radiation", fmtD (data.getD 10 .nan).roundToInt),
   ("uv", fmtD (data.getD 2 .nan).roundToInt),
   ("wind_avg", fmtF2 (data.getD 5 .nan)),
   ("wind_direction", fmtD (data.getD 7 .nan).roundToInt),
   ("wind_gust", fmtF2 (data.getD 6 .nan)),
   ("wind_lull", fmtF2 (data.getD 4 .nan))]

/-- tempest.parseSkyObservation: obs_sky extractor; daily_rain is added to
the field map only when the index-11 value is not NaN. -/
def parseSkyObservation (cfg : Config) (report : Report) :
    Except TempestError ParseResult :=
  if report.Obs.length < 14 then
    .error (.insufficientData 14 report.Obs.length)
  else
    let data := report.Obs
    .ok ((data.getD 0 .nan).truncToInt,
      if (data.getD 11 .nan).isNaN then skyBaseFields data
      else skyBaseFields data ++ [("daily_rain", fmtF2 (data.getD 11 .nan))])

/-- tempest.parseDeviceStatus: device_status extractor (never fails). -/
def parseDeviceStatus (cfg : Config) (report : Report) :
    Except TempestError ParseResult :=
  .ok (report.Timestamp,
    [("device_uptime", fmtD report.Uptime),
     ("device_voltage", fmtF2 report.Voltage),
     ("device_rssi", fmtF2 report.RSSI),
     ("device_hub_rssi", fmtF2 report.HubRSSI),
     ("sensor_status", fmtD report.SensorStatus),
     ("firmware_revision", fmtD report.FirmwareRevision)])

/-- tempest.parseHubStatus: hub_status extractor; reset_flags is added only
when the string is non-empty (never fails). -/
def parseHubStatus (cfg : Config) (report : Report) :
    Except TempestError ParseResult :=
  let base :=
    [("hub_uptime", fmtD report.Uptime),
     ("hub_rssi", fmtF2 report.RSSI),
     ("firmware_revision", fmtD report.FirmwareRevision),
     ("sequence", fmtD report.Seq)]
  .ok (report.Timestamp,
    if report.ResetFlags ≠ "" then base ++ [("reset_flags", report.ResetFlags)]
    else base)

/-- tempest.Parse after the JSON decode step: dispatch on the report type,
run the extractor, wrap its error with the operation name, and attach the
tags and bucket.  Go returns (nil, nil) for ignored types; that is the
Except.ok none case. -/
def Parse (cfg : Config) (dew : DewFn) (report : Report) :
    Except TempestError (Option Data) :=
  let mk : String → String → ParseResult → List (String × String) → Data :=
    fun name bucket res tags =>
      { Timestamp := res.1, Name := name, Bucket := bucket,
        Tags := tags, Fields := res.2 }
  if report.ReportType = "obs_st" then
    match parseObservation cfg dew report with
    | .error e => .error (.wrap "parsing observation" e)
    | .ok res => .ok (some (mk "weather" cfg.Influx_Bucket res
        [("station", report.StationSerial)]))
  else if report.ReportType = "rapid_wind" then
    if !cfg.Rapid_Wind then .ok none
    else
      match parseRapidWind cfg report with
      | .error e => .error (.wrap "parsing rapid wind" e)
      | .ok res =>
        let bucket := if cfg.Influx_Bucket_Rapid_Wind ≠ "" then
          cfg.Influx_Bucket_Rapid_Wind else cfg.Influx_Bucket
        .ok (some (mk "weather" bucket res [("station", report.StationSerial)]))
  else if report.ReportType = "evt_precip" then
    match parseRainStartEvent cfg report with
    | .error e => .error (.wrap "parsing rain start event" e)
    | .ok res => .ok (some (mk "weather_events" cfg.Influx_Bucket res
        [("station", report.StationSerial), ("event_type", "rain_start")]))
  else if report.ReportType = "evt_strike" then
    match parseLightningStrike cfg report with
    | .error e => .error (.wrap "parsing lightning strike" e)
    | .ok res => .ok (some (mk "weather_events" cfg.Influx_Bucket res
        [("station", report.StationSerial), ("event_type", "lightning_strike")]))
  else if report.ReportType = "obs_air" then
    match parseAirObservation cfg dew report with
    | .error e => .error (.wrap "parsing AIR observation" e)
    | .ok res => .ok (some (mk "weather" cfg.Influx_Bucket res
        [("station", report.StationSerial), ("sensor_type", "air")]))
  else if report.ReportType = "obs_sky" then
    match parseSkyObservation cfg report with
    | .error e => .error (.wrap "parsing Sky observation" e)
    | .ok res => .ok (some (mk "weather" cfg.Influx_Bucket res
        [("station", report.StationSerial), ("sensor_type", "sky")]))
  else if report.ReportType = "device_status" then
    match parseDeviceStatus cfg report with
    | .error e => .error (.wrap "parsing device status" e)
    | .ok res => .ok (some (mk "device_status" cfg.Influx_Bucket res
        [("device", report.StationSerial), ("hub", report.HubSerial)]))
  else if report.ReportType = "hub_status" then
    match parseHubStatus cfg report with
    | .error e => .error (.wrap "parsing hub status" e)
    | .ok res => .ok (some (mk "hub_status" cfg.Influx_Bucket res
        [("hub", report.StationSerial)]))
  else
    .ok none

/-- The eight discriminators the dispatcher recognizes. -/
def recognizedReportTypes : List String :=
  ["obs_st", "rapid_wind", "evt_precip", "evt_strike",
   "obs_air", "obs_sky", "device_status", "hub_status"]

/-- Example configuration used by the concrete witnesses. -/
def cfgW : Config :=
  { Debug := false, Rapid_Wind := true, Influx_Bucket := "tempest",
    Influx_Bucket_Rapid_Wind := "" }

/-- Configuration with rapid-wind reporting disabled. -/
def cfgNoRW : Config := { cfgW with Rapid_Wind := false }

/-- Dew-point capability that succeeds, returning the temperature. -/
def dewOkW : DewFn := fun t _ => (t, false)

/-- Dew-point capability that always fails, returning zero. -/
def dewErrW : DewFn := fun _ _ => (gf 0, true)

/-- Zero-valued envelope, the Go zero value a JSON decode starts from. -/
def baseReport : Report :=
  { StationSerial := "", ReportType := "", HubSerial := "",
    Obs := [], Ob := (gf 0, gf 0, gf 0), Evt := [],
    FirmwareRevision := 0, Uptime := 0, Timestamp := 0, ResetFlags := "",
    Seq := 0, Voltage := gf 0, RSSI := gf 0, HubRSSI := gf 0,
    SensorStatus := 0 }

/-- Concrete obs_st envelope with an 18-element observation array
(fractional entries are dyadic: 1.5, 2.875, 4.75, 1013.25, 25.5, 6.5,
0.5 and 4.625). -/
def obsStReport : Report :=
  { baseReport with
    ReportType := "obs_st", StationSerial := "ST-123456",
    Obs := [gf 1640995200, GoFloat.fin 3 1, GoFloat.fin 23 3, GoFloat.fin 19 2,
            gf 180, gf 3, GoFloat.fin 4053 2, GoFloat.fin 51 1, gf 65,
            gf 50000, GoFloat.fin 13 1, gf 800, GoFloat.fin 1 1, gf 0,
            gf 5, gf 2, GoFloat.fin 37 3, gf 1] }

/-- Concrete obs_st envelope with only 2 observation elements. -/
def obsStShortReport : Report :=
  { baseReport with
    ReportType := "obs_st", StationSerial := "ST-123456",
    Obs := [gf 1640995200, gf 1] }

/-- Concrete rapid_wind envelope, ob = [1640995200, 5.5, 270]. -/
def rapidWindReport : Report :=
  { baseReport with
    ReportType := "rapid_wind", StationSerial := "ST-123456",
    Ob := (gf 1640995200, GoFloat.fin 11 1, gf 270) }

/-- Concrete obs_sky envelope whose index-11 element is NaN. -/
def obsSkyReport : Report :=
  { baseReport with
    ReportType := "obs_sky", StationSerial := "ST-123456",
    Obs := [gf 1640995200, gf 50000, gf 5, GoFloat.fin 1 1, GoFloat.fin 3 1,
            GoFloat.fin 23 3, GoFloat.fin 19 2, gf 180, GoFloat.fin 37 3,
            gf 1, gf 800, GoFloat.nan, gf 0, gf 3] }

/-- Envelope with an unrecognized discriminator. -/
def unknownReport : Report :=
  { baseReport with
    ReportType := "light_debug", StationSerial := "ST-1" }

/-- Record whose tag keys sort differently from the concatenated
key=value strings: the plus sign orders below the equals sign, so the
code emits a+=x before a=y while key order puts a before a+. -/
def cexData : Data :=
  { Timestamp := 0, Name := "m", Bucket := "",
    Tags := [("a", "y"), ("a+", "x")], Fields := [("f", "1")] }

/-- Record used by the encoder-layout and determinism witnesses. -/
def layoutData : Data :=
  { Timestamp := 1640995200, Name := "weather", Bucket := "",
    Tags := [("station", "ST-123456"), ("location", "backyard")],
    Fields := [("temp", "25.50"), ("humidity", "60.00")] }

/-- The layout record with its maps listed in another iteration order. -/
def layoutDataPerm : Data :=
  { layoutData with
    Tags := [("location", "backyard"), ("station", "ST-123456")],
    Fields := [("humidity", "60.00"), ("temp", "25.50")] }

/-- Temperature argument the dispatcher hands to the dew-point capability:
index 7 of the observation array for obs_st, index 2 for obs_air. -/
def dewTempArg (report : Report) : GoFloat :=
  if report.ReportType = "obs_st" then report.Obs.getD 7 .nan
  else report.Obs.getD 2 .nan

/-- Humidity argument of the dew-point capability: index 8 for obs_st,
index 3 for obs_air. -/
def dewRHArg (report : Report) : GoFloat :=
  if report.ReportType = "obs_st" then report.Obs.getD 8 .nan
  else report.Obs.getD 3 .nan

/-- Reading of the sentence under scrutiny: the encoded line presents the
tag pairs and the field pairs sorted ascending by KEY, byte-lexicographic,
in the four-segment layout.  The code instead sorts the concatenated
key=value strings; the two orders differ when a key contains a character
ordering below the equals sign. -/
def marshalSortedByKey (m : Data) : Prop :=
  ∃ tl fl : List (String × String), tl.Perm m.Tags ∧ fl.Perm m.Fields ∧
    List.Sorted strLeP (tl.map Prod.fst) ∧ List.Sorted strLeP (fl.map Prod.fst) ∧
    m.Marshal = m.Name ++ "," ++ String.intercalate "," (tl.map pairStr) ++ " " ++
      String.intercalate "," (fl.map pairStr) ++ " " ++ toString m.Timestamp ++ "\n"

example : strLe "a+=x" "a=y" = true := by decide
example : sortStrings ["b", "a"] = ["a", "b"] := by decide
example : fmtF2 (GoFloat.fin 51 1) = "25.50" := by decide
example : fmtF2 (GoFloat.fin 37 3) = "4.62" := by decide
example : fmtF2 (GoFloat.fin 3 3) = "0.38" := by decide
example : fmtF2 (GoFloat.fin (-37) 3) = "-4.62" := by decide
example : fmtF2 (GoFloat.fin (-1) 10) = "-0.00" := by decide
example : GoFloat.roundToInt (GoFloat.fin (-5) 1) = -3 := by decide
example : GoFloat.truncToInt (GoFloat.fin (-5) 1) = -2 := by decide

theorem lexLe_total : ∀ as bs : List Char, lexLe as bs = true ∨ lexLe bs as = true
  | [], _ => Or.inl rfl
  | _ :: _, [] => Or.inr rfl
  | a :: as, b :: bs => by
    rcases lt_trichotomy a b with h | h | h
    · left; simp [lexLe, h]
    · subst h
      rcases lexLe_total as bs with ih | ih
      · left; simp [lexLe, ih]
      · right; simp [lexLe, ih]
    · right; simp [lexLe, h]

theorem lexLe_trans : ∀ as bs cs : List Char,
    lexLe as bs = true → lexLe bs cs = true → lexLe as cs = true
  | [], _, _ => by intro _ _; rfl
  | _ :: _, [], _ => by intro h _; simp [lexLe] at h
  | _ :: _, _ :: _, [] => by intro _ h; simp [lexLe] at h
  | a :: as, b :: bs, c :: cs => by
    intro h1 h2
    by_cases hab : a < b
    · by_cases hbc : b < c
      · simp [lexLe, lt_trans hab hbc]
      · simp [lexLe, hbc] at h2
        rcases h2 with ⟨hbc', _⟩
        subst hbc'
        simp [lexLe, hab]
    · simp [lexLe, hab] at h1
      rcases h1 with ⟨hab', h1⟩
      subst hab'
      by_cases hbc : a < c
      · simp [lexLe, hbc]
      · simp [lexLe, hbc] at h2
        rcases h2 with ⟨hbc', h2⟩
        subst hbc'
        simp [lexLe, hbc, lexLe_trans as bs cs h1 h2]

theorem lexLe_antisymm : ∀ as bs : List Char,
    lexLe as bs = true → lexLe bs as = true → as = bs
  | [], [] => by intro _ _; rfl
  | [], _ :: _ => by intro _ h; simp [lexLe] at h
  | _ :: _, [] => by intro h _; simp [lexLe] at h
  | a :: as, b :: bs => by
    intro h1 h2
    by_cases hab : a < b
    · simp [lexLe, asymm hab, ne_of_gt hab] at h2
    · simp [lexLe, hab] at h1
      rcases h1 with ⟨hab', h1⟩
      subst hab'
      simp [lexLe, hab] at h2
      rw [lexLe_antisymm as bs h1 h2]

instance : IsTotal String strLeP :=
  ⟨fun a b => lexLe_total a.toList b.toList⟩

instance : IsTrans String strLeP :=
  ⟨fun a b c => lexLe_trans a.toList b.toList c.toList⟩

instance : IsAntisymm String strLeP :=
  ⟨fun a b h1 h2 => by
    have h := lexLe_antisymm a.toList b.toList h1 h2
    cases a; cases b
    simpa [String.toList] using congrArg String.mk h⟩


theorem perm_pair_eq {α : Type} {a b : α} {l : List α} (h : l.Perm [a, b]) :
    l = [a, b] ∨ l = [b, a] := by
  rcases l with _ | ⟨x, _ | ⟨y, _ | ⟨z, t⟩⟩⟩
  · have hl := h.length_eq; simp at hl
  · have hl := h.length_eq; simp at hl
  · have hx : x ∈ [a, b] := h.subset (by simp)
    rcases List.mem_pair.mp hx with hxa | hxb
    · subst hxa
      have hy := List.perm_singleton.mp ((List.perm_cons x).mp h)
      simp [hy]
    · subst hxb
      have h2 : [x, y].Perm [x, a] := h.trans (List.Perm.swap x a [])
      have hy := List.perm_singleton.mp ((List.perm_cons x).mp h2)
      simp [hy]
  · have hl := h.length_eq; simp at hl

theorem sortStrings_eq_of_perm {l1 l2 : List String} (h : l1.Perm l2) :
    sortStrings l1 = sortStrings l2 :=
  List.eq_of_perm_of_sorted
    (((List.perm_insertionSort _ l1).trans h).trans (List.perm_insertionSort _ l2).symm)
    (List.sorted_insertionSort _ l1) (List.sorted_insertionSort _ l2)

theorem parseObservation_error_shape (cfg : Config) (dew : DewFn) (report : Report)
    (e : TempestError) (h : parseObservation cfg dew report = .error e) :
    e = .insufficientData 18 report.Obs.length := by
  unfold parseObservation at h
  split_ifs at h <;> simp_all

theorem parseRapidWind_no_error (cfg : Config) (report : Report)
    (e : TempestError) (h : parseRapidWind cfg report = .error e) : False := by
  simp [parseRapidWind, Report.obList] at h

theorem parseRainStartEvent_error_shape (cfg : Config) (report : Report)
    (e : TempestError) (h : parseRainStartEvent cfg report = .error e) :
    e = .insufficientDataEvt 1 := by
  unfold parseRainStartEvent at h
  split_ifs at h <;> simp_all

theorem parseLightningStrike_error_shape (cfg : Config) (report : Report)
    (e : TempestError) (h : parseLightningStrike cfg report = .error e) :
    e = .insufficientDataEvt 3 := by
  unfold parseLightningStrike at h
  split_ifs at h <;> simp_all

theorem parseAirObservation_error_shape (cfg : Config) (dew : DewFn) (report : Report)
    (e : TempestError) (h : parseAirObservation cfg dew report = .error e) :
    e = .insufficientData 8 report.Obs.length := by
  unfold parseAirObservation at h
  split_ifs at h <;> simp_all

theorem parseSkyObservation_error_shape (cfg : Config) (report : Report)
    (e : TempestError) (h : parseSkyObservation cfg report = .error e) :
    e = .insufficientData 14 report.Obs.length := by
  unfold parseSkyObservation at h
  split_ifs at h <;> simp_all

theorem parseDeviceStatus_no_error (cfg : Config) (report : Report)
    (e : TempestError) (h : parseDeviceStatus cfg report = .error e) : False := by
  simp [parseDeviceStatus] at h

theorem parseHubStatus_no_error (cfg : Config) (report : Report)
    (e : TempestError) (h : parseHubStatus cfg report = .error e) : False := by
  unfold parseHubStatus at h
  split_ifs at h <;> simp_all

theorem parse_error_no_invalid (cfg : Config) (dew : DewFn) (r : Report)
    (e : TempestError) (h : Parse cfg dew r = .error e) :
    e.usesInvalidReportType = false := by
  simp only [Parse] at h
  split_ifs at h
  · rcases hp : parseObservation cfg dew r with e2 | res <;> rw [hp] at h <;> simp at h
    subst h
    simp [TempestError.usesInvalidReportType,
      parseObservation_error_shape cfg dew r e2 hp]
  · rcases hp : parseRapidWind cfg r with e2 | res <;> rw [hp] at h <;> simp at h
    exact (parseRapidWind_no_error cfg r e2 hp).elim
  · rcases hp : parseRapidWind cfg r with e2 | res <;> rw [hp] at h <;> simp at h
    exact (parseRapidWind_no_error cfg r e2 hp).elim
  · rcases hp : parseRainStartEvent cfg r with e2 | res <;> rw [hp] at h <;> simp at h
    subst h
    simp [TempestError.usesInvalidReportType,
      parseRainStartEvent_error_shape cfg r e2 hp]
  · rcases hp : parseLightningStrike cfg r with e2 | res <;> rw [hp] at h <;> simp at h
    subst h
    simp [TempestError.usesInvalidReportType,
      parseLightningStrike_error_shape cfg r e2 hp]
  · rcases hp : parseAirObservation cfg dew r with e2 | res <;> rw [hp] at h <;> simp at h
    subst h
    simp [TempestError.usesInvalidReportType,
      parseAirObservation_error_shape cfg dew r e2 hp]
  · rcases hp : parseSkyObservation cfg r with e2 | res <;> rw [hp] at h <;> simp at h
    subst h
    simp [TempestError.usesInvalidReportType,
      parseSkyObservation_error_shape cfg r e2 hp]
  · rcases hp : parseDeviceStatus cfg r with e2 | res <;> rw [hp] at h <;> simp at h
    exact (parseDeviceStatus_no_error cfg r e2 hp).elim
  · rcases hp : parseHubStatus cfg r with e2 | res <;> rw [hp] at h <;> simp at h
    exact (parseHubStatus_no_error cfg r e2 hp).elim

/-- C1: for every obs_st envelope whose observation array has length exactly
18, Parse returns a Record with measurement weather, a station tag equal to
the envelope station serial, timestamp the int64 conversion of the array
head, and a fields map holding exactly the 15 keys battery, dew_point,
illuminance, p, precipitation, precipitation_type, solar_radiation,
strike_count, strike_distance, temp, uv, wind_avg, wind_direction,
wind_gust, wind_lull — float-valued quantities rendered by the 2-decimal
formatter, integer-valued quantities as plain integers. -/
theorem c1_obs_st_full_record (cfg : Config) (dew : DewFn) (report : Report)
    (hty : report.ReportType = "obs_st") (hlen : report.Obs.length = 18) :
    Parse cfg dew report = .ok (some
      { Timestamp := (report.Obs.getD 0 .nan).truncToInt,
        Name := "weather", Bucket := cfg.Influx_Bucket,
        Tags := [("station", report.StationSerial)],
        Fields :=
          [("battery", fmtF2 (report.Obs.getD 16 .nan)),
           ("dew_point", fmtF2 (dew (report.Obs.getD 7 .nan) (report.Obs.getD 8 .nan)).1),
           ("illuminance", fmtD (report.Obs.getD 9 .nan).roundToInt),
           ("p", fmtF2 (report.Obs.getD 6 .nan)),
           ("precipitation", fmtF2 (report.Obs.getD 12 .nan)),
           ("precipitation_type", fmtD (report.Obs.getD 13 .nan).roundToInt),
           ("solar_radiation", fmtD (report.Obs.getD 11 .nan).roundToInt),
           ("strike_count", fmtD (report.Obs.getD 15 .nan).roundToInt),
           ("strike_distance", fmtD (report.Obs.getD 14 .nan).roundToInt),
           ("temp", fmtF2 (report.Obs.getD 7 .nan)),
           ("uv", fmtF2 (report.Obs.getD 10 .nan)),
           ("wind_avg", fmtF2 (report.Obs.getD 2 .nan)),
           ("wind_direction", fmtD (report.Obs.getD 4 .nan).roundToInt),
           ("wind_gust", fmtF2 (report.Obs.getD 3 .nan)),
           ("wind_lull", fmtF2 (report.Obs.getD 1 .nan))] }) := by
  simp [Parse, parseObservation, obsStFields, hty, hlen]

/-- Witness for c1_obs_st_full_record at a concrete 18-element envelope. -/
theorem c1_witness :
    obsStReport.ReportType = "obs_st" ∧ obsStReport.Obs.length = 18 ∧
    Parse cfgW dewOkW obsStReport = .ok (some
      { Timestamp := (obsStReport.Obs.getD 0 .nan).truncToInt,
        Name := "weather", Bucket := cfgW.Influx_Bucket,
        Tags := [("station", obsStReport.StationSerial)],
        Fields :=
          [("battery", fmtF2 (obsStReport.Obs.getD 16 .nan)),
           ("dew_point", fmtF2 (dewOkW (obsStReport.Obs.getD 7 .nan) (obsStReport.Obs.getD 8 .nan)).1),
           ("illuminance", fmtD (obsStReport.Obs.getD 9 .nan).roundToInt),
           ("p", fmtF2 (obsStReport.Obs.getD 6 .nan)),
           ("precipitation", fmtF2 (obsStReport.Obs.getD 12 .nan)),
           ("precipitation_type", fmtD (obsStReport.Obs.getD 13 .nan).roundToInt),
           ("solar_radiation", fmtD (obsStReport.Obs.getD 11 .nan).roundToInt),
           ("strike_count", fmtD (obsStReport.Obs.getD 15 .nan).roundToInt),
           ("strike_distance", fmtD (obsStReport.Obs.getD 14 .nan).roundToInt),
           ("temp", fmtF2 (obsStReport.Obs.getD 7 .nan)),
           ("uv", fmtF2 (obsStReport.Obs.getD 10 .nan)),
           ("wind_avg", fmtF2 (obsStReport.Obs.getD 2 .nan)),
           ("wind_direction", fmtD (obsStReport.Obs.getD 4 .nan).roundToInt),
           ("wind_gust", fmtF2 (obsStReport.Obs.getD 3 .nan)),
           ("wind_lull", fmtF2 (obsStReport.Obs.getD 1 .nan))] }) :=
  ⟨rfl, by decide, c1_obs_st_full_record cfgW dewOkW obsStReport rfl (by decide)⟩

/-- C2 (amended): for every Record with non-empty tags and non-empty
fields, the encoded line presents the tag key=value pairs sorted ascending
as whole strings (byte-lexicographic) and likewise the field key=value
pairs, with exactly one comma between pairs, one space between segments,
one space before the timestamp and exactly one trailing newline, in the
four-segment layout.  Sorting is by the concatenated key=value string, not
by the key alone — the two orders differ when a key contains a character
ordering below the equals sign. -/
theorem c2_line_layout_sorted_pairs (m : Data)
    (htags : m.Tags ≠ []) (hfields : m.Fields ≠ []) :
    ∃ ts fs : List String,
      ts.Perm (m.Tags.map pairStr) ∧ fs.Perm (m.Fields.map pairStr) ∧
      List.Sorted strLeP ts ∧ List.Sorted strLeP fs ∧
      m.Marshal = m.Name ++ "," ++ String.intercalate "," ts ++ " " ++
        String.intercalate "," fs ++ " " ++ toString m.Timestamp ++ "\n" :=
  ⟨sortStrings (m.Tags.map pairStr), sortStrings (m.Fields.map pairStr),
   List.perm_insertionSort _ _, List.perm_insertionSort _ _,
   List.sorted_insertionSort _ _, List.sorted_insertionSort _ _, rfl⟩

/-- Witness for c2_line_layout_sorted_pairs at a concrete record. -/
theorem c2_witness :
    layoutData.Tags ≠ [] ∧ layoutData.Fields ≠ [] ∧
    ∃ ts fs : List String,
      ts.Perm (layoutData.Tags.map pairStr) ∧ fs.Perm (layoutData.Fields.map pairStr) ∧
      List.Sorted strLeP ts ∧ List.Sorted strLeP fs ∧
      layoutData.Marshal = layoutData.Name ++ "," ++ String.intercalate "," ts ++ " " ++
        String.intercalate "," fs ++ " " ++ toString layoutData.Timestamp ++ "\n" :=
  ⟨by decide, by decide,
   c2_line_layout_sorted_pairs layoutData (by decide) (by decide)⟩

/-- C2 counterexample: cexData has non-empty tags and fields, yet its
encoded line does not present the tag pairs sorted ascending by key: the
code sorts the whole key=value strings, so a+=x is emitted before a=y
although the key a orders before the key a+. -/
theorem c2_sorted_by_key_counterexample :
    cexData.Tags ≠ [] ∧ cexData.Fields ≠ [] ∧ ¬ marshalSortedByKey cexData := by
  refine ⟨by decide, by decide, ?_⟩
  rintro ⟨tl, fl, htl, hfl, hts, hfs, heq⟩
  have hfl2 : fl = [("f", "1")] := List.perm_singleton.mp (by simpa [cexData] using hfl)
  subst hfl2
  have htl2 : tl.Perm [("a", "y"), ("a+", "x")] := by simpa [cexData] using htl
  rcases perm_pair_eq htl2 with h | h <;> subst h
  · exact absurd heq (by decide)
  · exact absurd hts (by decide)

/-- C3: for every obs_st envelope whose observation array is shorter than
18, Parse fails with an InsufficientData error carrying the expected count
18 and the actual count, wrapped with the operation name parsing
observation, and no Record is produced. -/
theorem c3_obs_st_insufficient (cfg : Config) (dew : DewFn) (report : Report)
    (hty : report.ReportType = "obs_st") (hlen : report.Obs.length < 18) :
    Parse cfg dew report = .error
      (.wrap "parsing observation" (.insufficientData 18 report.Obs.length)) := by
  simp [Parse, parseObservation, hty, hlen]

/-- Witness for c3_obs_st_insufficient at a 2-element envelope. -/
theorem c3_witness :
    obsStShortReport.ReportType = "obs_st" ∧ obsStShortReport.Obs.length < 18 ∧
    Parse cfgW dewOkW obsStShortReport = .error
      (.wrap "parsing observation" (.insufficientData 18 obsStShortReport.Obs.length)) :=
  ⟨rfl, by decide, c3_obs_st_insufficient cfgW dewOkW obsStShortReport rfl (by decide)⟩

/-- C4: for every obs_st or obs_air envelope that passes its length check,
a failure of the injected dew-point capability is not propagated: Parse
still returns a Record whose fields map contains a dew_point entry
formatted from whatever value the failed computation returned. -/
theorem c4_dew_error_swallowed (cfg : Config) (dew : DewFn) (report : Report)
    (hty : report.ReportType = "obs_st" ∨ report.ReportType = "obs_air")
    (hlen : (if report.ReportType = "obs_st" then 18 else 8) ≤ report.Obs.length)
    (herr : (dew (dewTempArg report) (dewRHArg report)).2 = true) :
    ∃ d : Data, Parse cfg dew report = .ok (some d) ∧
      ("dew_point", fmtF2 (dew (dewTempArg report) (dewRHArg report)).1) ∈ d.Fields := by
  rcases hty with hty | hty
  · rw [hty] at hlen
    simp at hlen
    refine ⟨{ Timestamp := (report.Obs.getD 0 .nan).truncToInt, Name := "weather",
              Bucket := cfg.Influx_Bucket, Tags := [("station", report.StationSerial)],
              Fields := obsStFields dew report.Obs }, ?_, ?_⟩
    · simp [Parse, parseObservation, hty, Nat.not_lt.mpr hlen]
    · simp [obsStFields, dewTempArg, dewRHArg, hty]
  · rw [hty] at hlen
    simp at hlen
    refine ⟨{ Timestamp := (report.Obs.getD 0 .nan).truncToInt, Name := "weather",
              Bucket := cfg.Influx_Bucket,
              Tags := [("station", report.StationSerial), ("sensor_type", "air")],
              Fields := airFields dew report.Obs }, ?_, ?_⟩
    · simp [Parse, parseAirObservation, hty, Nat.not_lt.mpr hlen]
    · simp [airFields, dewTempArg, dewRHArg, hty]

/-- Witness for c4_dew_error_swallowed: a failing dew-point capability on a
concrete obs_st envelope. -/
theorem c4_witness :
    (obsStReport.ReportType = "obs_st" ∨ obsStReport.ReportType = "obs_air") ∧
    (if obsStReport.ReportType = "obs_st" then 18 else 8) ≤ obsStReport.Obs.length ∧
    (dewErrW (dewTempArg obsStReport) (dewRHArg obsStReport)).2 = true ∧
    ∃ d : Data, Parse cfgW dewErrW obsStReport = .ok (some d) ∧
      ("dew_point", fmtF2 (dewErrW (dewTempArg obsStReport) (dewRHArg obsStReport)).1) ∈ d.Fields :=
  ⟨Or.inl rfl, by decide, rfl,
   c4_dew_error_swallowed cfgW dewErrW obsStReport (Or.inl rfl) (by decide) rfl⟩

/-- C5: for every envelope whose discriminator is rapid_wind, Parse with
the rapid-wind flag disabled returns no Record and no error, whatever the
payload holds. -/
theorem c5_rapid_wind_disabled (cfg : Config) (dew : DewFn) (report : Report)
    (hty : report.ReportType = "rapid_wind") (hflag : cfg.Rapid_Wind = false) :
    Parse cfg dew report = .ok none := by
  simp [Parse, hty, hflag]

/-- Witness for c5_rapid_wind_disabled at a concrete rapid_wind envelope. -/
theorem c5_witness :
    rapidWindReport.ReportType = "rapid_wind" ∧ cfgNoRW.Rapid_Wind = false ∧
    Parse cfgNoRW dewOkW rapidWindReport = .ok none :=
  ⟨rfl, rfl, c5_rapid_wind_disabled cfgNoRW dewOkW rapidWindReport rfl rfl⟩

/-- C6: every syntactically valid envelope whose discriminator is outside
the eight recognized report types is silently discarded — Parse returns no
Record and no error — and no Parse error, for any input at all, is or
wraps the declared invalid-report-type sentinel. -/
theorem c6_unknown_type_silently_ignored (cfg : Config) (dew : DewFn) (report : Report)
    (h : report.ReportType ∉ recognizedReportTypes) :
    Parse cfg dew report = .ok none ∧
    ∀ (cfg2 : Config) (dew2 : DewFn) (r2 : Report) (e : TempestError),
      Parse cfg2 dew2 r2 = .error e → e.usesInvalidReportType = false := by
  constructor
  · simp only [recognizedReportTypes, List.mem_cons, List.not_mem_nil, or_false,
      not_or] at h
    obtain ⟨h1, h2, h3, h4, h5, h6, h7, h8⟩ := h
    simp [Parse, h1, h2, h3, h4, h5, h6, h7, h8]
  · exact parse_error_no_invalid

/-- Witness for c6_unknown_type_silently_ignored at a concrete envelope
with the unrecognized discriminator light_debug. -/
theorem c6_witness :
    unknownReport.ReportType ∉ recognizedReportTypes ∧
    (Parse cfgW dewOkW unknownReport = .ok none ∧
     ∀ (cfg2 : Config) (dew2 : DewFn) (r2 : Report) (e : TempestError),
       Parse cfg2 dew2 r2 = .error e → e.usesInvalidReportType = false) :=
  ⟨by decide, c6_unknown_type_silently_ignored cfgW dewOkW unknownReport (by decide)⟩

/-- C7: the literal Record with measurement weather, tag station=ST-123,
fields temp=25.5 and humidity=60.0 and timestamp 1640995200 encodes to
exactly the expected line, with humidity before temp. -/
theorem c7_literal_encode :
    (Data.mk 1640995200 "weather" "" [("station", "ST-123")]
      [("temp", "25.5"), ("humidity", "60.0")]).Marshal =
    "weather,station=ST-123 humidity=60.0,temp=25.5 1640995200\n" := by decide

/-- C8: for every obs_sky envelope whose observation array has length at
least 14, the extractor succeeds and emits the ten fields battery,
illuminance, precipitation, precipitation_type, solar_radiation, uv,
wind_avg, wind_direction, wind_gust, wind_lull, and emits daily_rain if
and only if the index-11 daily-rain-accumulation element is not NaN. -/
theorem c8_sky_fields (cfg : Config) (report : Report)
    (hlen : 14 ≤ report.Obs.length) :
    parseSkyObservation cfg report = .ok ((report.Obs.getD 0 .nan).truncToInt,
      [("battery", fmtF2 (report.Obs.getD 8 .nan)),
       ("illuminance", fmtD (report.Obs.getD 1 .nan).roundToInt),
       ("precipitation", fmtF2 (report.Obs.getD 3 .nan)),
       ("precipitation_type", fmtD (report.Obs.getD 12 .nan).roundToInt),
       ("solar_radiation", fmtD (report.Obs.getD 10 .nan).roundToInt),
       ("uv", fmtD (report.Obs.getD 2 .nan).roundToInt),
       ("wind_avg", fmtF2 (report.Obs.getD 5 .nan)),
       ("wind_direction", fmtD (report.Obs.getD 7 .nan).roundToInt),
       ("wind_gust", fmtF2 (report.Obs.getD 6 .nan)),
       ("wind_lull", fmtF2 (report.Obs.getD 4 .nan))] ++
      (if (report.Obs.getD 11 .nan).isNaN then []
       else [("daily_rain", fmtF2 (report.Obs.getD 11 .nan))])) ∧
    (¬ (report.Obs.getD 11 .nan).isNaN = true ↔
      "daily_rain" ∈ (([("battery", fmtF2 (report.Obs.getD 8 .nan)),
       ("illuminance", fmtD (report.Obs.getD 1 .nan).roundToInt),
       ("precipitation", fmtF2 (report.Obs.getD 3 .nan)),
       ("precipitation_type", fmtD (report.Obs.getD 12 .nan).roundToInt),
       ("solar_radiation", fmtD (report.Obs.getD 10 .nan).roundToInt),
       ("uv", fmtD (report.Obs.getD 2 .nan).roundToInt),
       ("wind_avg", fmtF2 (report.Obs.getD 5 .nan)),
       ("wind_direction", fmtD (report.Obs.getD 7 .nan).roundToInt),
       ("wind_gust", fmtF2 (report.Obs.getD 6 .nan)),
       ("wind_lull", fmtF2 (report.Obs.getD 4 .nan))] ++
      (if (report.Obs.getD 11 .nan).isNaN then []
       else [("daily_rain", fmtF2 (report.Obs.getD 11 .nan))])).map Prod.fst)) := by
  have hnlt := Nat.not_lt.mpr hlen
  constructor
  · simp only [parseSkyObservation, skyBaseFields, if_neg hnlt]
    cases h11 : (report.Obs.getD 11 GoFloat.nan).isNaN <;> simp
  · cases h11 : (report.Obs.getD 11 GoFloat.nan).isNaN <;> simp

/-- Witness for c8_sky_fields at a concrete envelope whose index-11
element is NaN. -/
theorem c8_witness :
    14 ≤ obsSkyReport.Obs.length ∧
    (parseSkyObservation cfgW obsSkyReport = .ok ((obsSkyReport.Obs.getD 0 .nan).truncToInt,
      [("battery", fmtF2 (obsSkyReport.Obs.getD 8 .nan)),
       ("illuminance", fmtD (obsSkyReport.Obs.getD 1 .nan).roundToInt),
       ("precipitation", fmtF2 (obsSkyReport.Obs.getD 3 .nan)),
       ("precipitation_type", fmtD (obsSkyReport.Obs.getD 12 .nan).roundToInt),
       ("solar_radiation", fmtD (obsSkyReport.Obs.getD 10 .nan).roundToInt),
       ("uv", fmtD (obsSkyReport.Obs.getD 2 .nan).roundToInt),
       ("wind_avg", fmtF2 (obsSkyReport.Obs.getD 5 .nan)),
       ("wind_direction", fmtD (obsSkyReport.Obs.getD 7 .nan).roundToInt),
       ("wind_gust", fmtF2 (obsSkyReport.Obs.getD 6 .nan)),
       ("wind_lull", fmtF2 (obsSkyReport.Obs.getD 4 .nan))] ++
      (if (obsSkyReport.Obs.getD 11 .nan).isNaN then []
       else [("daily_rain", fmtF2 (obsSkyReport.Obs.getD 11 .nan))])) ∧
    (¬ (obsSkyReport.Obs.getD 11 .nan).isNaN = true ↔
      "daily_rain" ∈ (([("battery", fmtF2 (obsSkyReport.Obs.getD 8 .nan)),
       ("illuminance", fmtD (obsSkyReport.Obs.getD 1 .nan).roundToInt),
       ("precipitation", fmtF2 (obsSkyReport.Obs.getD 3 .nan)),
       ("precipitation_type", fmtD (obsSkyReport.Obs.getD 12 .nan).roundToInt),
       ("solar_radiation", fmtD (obsSkyReport.Obs.getD 10 .nan).roundToInt),
       ("uv", fmtD (obsSkyReport.Obs.getD 2 .nan).roundToInt),
       ("wind_avg", fmtF2 (obsSkyReport.Obs.getD 5 .nan)),
       ("wind_direction", fmtD (obsSkyReport.Obs.getD 7 .nan).roundToInt),
       ("wind_gust", fmtF2 (obsSkyReport.Obs.getD 6 .nan)),
       ("wind_lull", fmtF2 (obsSkyReport.Obs.getD 4 .nan))] ++
      (if (obsSkyReport.Obs.getD 11 .nan).isNaN then []
       else [("daily_rain", fmtF2 (obsSkyReport.Obs.getD 11 .nan))])).map Prod.fst))) :=
  ⟨by decide, c8_sky_fields cfgW obsSkyReport (by decide)⟩

/-- C9: the encoder is deterministic — two Records equal as maps (same
measurement, bucket, timestamp, and tag and field maps up to the unordered
iteration order of the Go map representation) encode to identical
strings. -/
theorem c9_marshal_deterministic (m1 m2 : Data)
    (hn : m1.Name = m2.Name) (hb : m1.Bucket = m2.Bucket)
    (hts : m1.Timestamp = m2.Timestamp)
    (htagsp : m1.Tags.Perm m2.Tags) (hfieldsp : m1.Fields.Perm m2.Fields) :
    m1.Marshal = m2.Marshal := by
  unfold Data.Marshal
  rw [hn, hts, sortStrings_eq_of_perm (htagsp.map pairStr),
    sortStrings_eq_of_perm (hfieldsp.map pairStr)]

/-- Witness for c9_marshal_deterministic: the layout record under two map
iteration orders. -/
theorem c9_witness :
    layoutData.Name = layoutDataPerm.Name ∧ layoutData.Bucket = layoutDataPerm.Bucket ∧
    layoutData.Timestamp = layoutDataPerm.Timestamp ∧
    layoutData.Tags.Perm layoutDataPerm.Tags ∧
    layoutData.Fields.Perm layoutDataPerm.Fields ∧
    layoutData.Marshal = layoutDataPerm.Marshal :=
  ⟨rfl, rfl, rfl, List.Perm.swap _ _ _, List.Perm.swap _ _ _,
   c9_marshal_deterministic layoutData layoutDataPerm rfl rfl rfl
     (List.Perm.swap _ _ _) (List.Perm.swap _ _ _)⟩

/-- C10: the rapid-wind data is a fixed-length triple, so the
InsufficientData branch of parseRapidWind is unreachable: for every
envelope the extractor succeeds and emits exactly rapid_wind_speed
(2 decimals) and rapid_wind_direction (integer). -/
theorem c10_rapid_wind_never_errors (cfg : Config) (report : Report) :
    report.obList.length = 3 ∧
    parseRapidWind cfg report = .ok (report.Ob.1.truncToInt,
      [("rapid_wind_speed", fmtF2 report.Ob.2.1),
       ("rapid_wind_direction", fmtD report.Ob.2.2.roundToInt)]) :=
  ⟨rfl, by simp [parseRapidWind, Report.obList]⟩
